import Mathlib

/-!
# A verification development for the matrixone-operator reconciliation core

This file gives a shallow embedding, in Lean 4, of the reconciliation and
dependency-coordination logic of the matrixone-operator repository:

* the `Overlay` merge helpers, `ClaimedBucket` / `UniqueBucketLabel` and
  `StoresFailedFor` from `api/core/v1alpha1/common_helpers.go`;
* the DNSet controller helpers (`buildDNSetConfigMap`, `syncPods`,
  `syncPodSpec`, ...) from the `dnset` controller package;
* the CNSet webhook cache-size defaulting pinned by the repository's webhook
  test.

Go structs become Lean structures (pointers become `Option`, nil-checked
slices become `Option (List _)`), in-place mutation becomes explicit state
passing, and fallible functions return `Except`.  Library code that is not
part of the sampled sources (the controller-runtime `UpsertListByKey` /
`TomlConfig` helpers, `crypto/sha1`, and a few `common` helpers) is modelled
from its documented behaviour; each such definition carries a doc comment
saying so.
-/

/-! ## Kubernetes-flavoured data model (the fields the embedded code touches) -/

/-- A key/value map (Go `map[string]string`), as an association list with
insert-or-replace update semantics. -/
def mapInsert (m : List (String × String)) (k v : String) : List (String × String) :=
  match m with
  | [] => [(k, v)]
  | (k', v') :: rest => if k' == k then (k, v) :: rest else (k', v') :: mapInsert rest k v

/-- Go `for k, v := range src { dst[k] = v }`: fold the overlay map into the
destination map, overlay entries winning on key conflict. -/
def mapUnion (dst : List (String × String)) (src : List (String × String)) : List (String × String) :=
  src.foldl (fun acc kv => mapInsert acc kv.1 kv.2) dst

/-- `metav1.ObjectMeta`, restricted to the fields the embedded code reads or
writes. -/
structure ObjectMeta where
  Name : String := ""
  Namespace : String := ""
  Labels : List (String × String) := []
  PodAnnotationMap : List (String × String) := []
  deriving Repr, DecidableEq

/-- `corev1.EnvVar` (the `ValueFrom` field-ref variant is flattened into the
value string). -/
structure EnvVar where
  Name : String
  Value : String := ""
  deriving Repr, DecidableEq

/-- `corev1.VolumeMount`. -/
structure VolumeMount where
  Name : String
  ReadOnly : Bool := false
  MountPath : String := ""
  deriving Repr, DecidableEq

/-- `corev1.Volume`; `Source` stands for the whole `VolumeSource` payload. -/
structure Volume where
  Name : String
  Source : String := ""
  deriving Repr, DecidableEq

/-- `corev1.ResourceRequirements`, keeping only the memory request (the one
quantity the embedded defaulting logic reads) plus an opaque rest. -/
structure ResourceRequirements where
  RequestsMemory : Option Nat := none
  Rest : String := ""
  deriving Repr, DecidableEq

/-- `corev1.Container`, restricted to the fields the embedded code touches. -/
structure Container where
  Name : String
  Image : String := ""
  Resources : ResourceRequirements := {}
  Command : List String := []
  Args : List String := []
  EnvFrom : List String := []
  Env : List EnvVar := []
  VolumeMounts : List VolumeMount := []
  ImagePullPolicy : String := ""
  ReadinessProbe : Option String := none
  LivenessProbe : Option String := none
  Lifecycle : Option String := none
  deriving Repr, DecidableEq

/-- `corev1.PodSpec`, restricted to the fields the embedded code touches.
Go pointer fields become `Option`; plain slices stay plain lists. -/
structure PodSpec where
  Volumes : List Volume := []
  Containers : List Container := []
  InitContainers : List Container := []
  Affinity : Option String := none
  ServiceAccountName : String := ""
  SecurityContext : Option String := none
  ImagePullSecrets : Option (List String) := none
  Tolerations : Option (List String) := none
  PriorityClassName : String := ""
  TerminationGracePeriodSeconds : Option Int := none
  HostAliases : Option (List String) := none
  TopologySpreadConstraints : Option (List String) := none
  RuntimeClassName : Option String := none
  DNSConfig : Option String := none
  NodeSelector : List (String × String) := []
  ReadinessGates : List String := []
  deriving Repr, DecidableEq

/-- `corev1.PersistentVolumeClaim`, as an opaque record. -/
structure PersistentVolumeClaim where
  Name : String
  SizeBytes : Nat := 0
  StorageClassName : Option String := none
  deriving Repr, DecidableEq

/-! ## The Overlay merge helpers (`api/core/v1alpha1/common_helpers.go`) -/

/-- `v1alpha1.MainContainerOverlay`: every field is nil-checked by the source,
so every field is an `Option`. -/
structure MainContainerOverlay where
  Command : Option (List String) := none
  Args : Option (List String) := none
  EnvFrom : Option (List String) := none
  Env : Option (List EnvVar) := none
  ReadinessProbe : Option String := none
  LivenessProbe : Option String := none
  Lifecycle : Option String := none
  VolumeMounts : Option (List VolumeMount) := none
  ImagePullPolicy : Option String := none
  deriving Repr, DecidableEq

/-- `v1alpha1.Overlay` (which embeds `MainContainerOverlay` in Go).
Nil-checked slice and pointer fields are `Option`; the string fields
(`ServiceAccountName`, `PriorityClassName`) are compared against `""` by the
source and stay plain strings. -/
structure Overlay where
  MainContainerOverlay : MainContainerOverlay := {}
  Volumes : Option (List Volume) := none
  VolumeClaims : List PersistentVolumeClaim := []
  Affinity : Option String := none
  ServiceAccountName : String := ""
  SecurityContext : Option String := none
  ImagePullSecrets : Option (List String) := none
  Tolerations : Option (List String) := none
  PriorityClassName : String := ""
  TerminationGracePeriodSeconds : Option Int := none
  HostAliases : Option (List String) := none
  TopologySpreadConstraints : Option (List String) := none
  RuntimeClassName : Option String := none
  DNSConfig : Option String := none
  InitContainers : Option (List Container) := none
  SidecarContainers : Option (List Container) := none
  PodLabels : Option (List (String × String)) := none
  PodAnnotationOverlay : Option (List (String × String)) := none
  deriving Repr, DecidableEq

/-- Modelled from the spec: `util.UpsertListByKey` of the controller-runtime
library (not part of the sampled sources) upserts the second list into the
first one key by key -- "overlay entries with a matching name replace, others
are appended, existing order preserved for untouched entries".
This is one upsert step. -/
def upsertOneByKey (key : α → String) (xs : List α) (y : α) : List α :=
  if xs.any (fun x => key x == key y) then
    xs.map (fun x => if key x == key y then y else x)
  else xs ++ [y]

/-- Modelled from the spec: `util.UpsertListByKey list toUpsert key`. -/
def UpsertListByKey (key : α → String) (list toUpsert : List α) : List α :=
  toUpsert.foldl (upsertOneByKey key) list

/-- The reserved name of the main container (`v1alpha1.ContainerMain`). -/
def ContainerMain : String := "main"

/-- `findMainContainer` (common_helpers.go:196): the first container carrying
the reserved main-container name. -/
def findMainContainer (containers : List Container) : Option Container :=
  containers.find? (fun c => c.Name == ContainerMain)

/-- `Overlay.OverlayPodMeta` (common_helpers.go:60): union the overlay's pod
labels and annotations into the meta's maps, overlay keys winning. -/
def OverlayPodMeta (o : Option Overlay) (meta : ObjectMeta) : ObjectMeta :=
  match o with
  | none => meta
  | some o =>
    let meta := match o.PodLabels with
      | some ls => { meta with Labels := mapUnion meta.Labels ls }
      | none => meta
    match o.PodAnnotationOverlay with
      | some as' => { meta with PodAnnotationMap := mapUnion meta.PodAnnotationMap as' }
      | none => meta

/-- `Overlay.AppendVolumeClaims` (common_helpers.go:79). -/
def AppendVolumeClaims (o : Option Overlay) (claims : List PersistentVolumeClaim) :
    List PersistentVolumeClaim :=
  match o with
  | none => claims
  | some o => claims ++ o.VolumeClaims

/-- Step of `Overlay.OverlayPodSpec`: the `o.Volumes != nil` block
(common_helpers.go:91-95). -/
def overlayVolumesStep (o : Overlay) (pod : PodSpec) : PodSpec :=
  match o.Volumes with
  | some vs => { pod with Volumes := UpsertListByKey (fun v => v.Name) pod.Volumes vs }
  | none => pod

/-- Block of `Overlay.OverlayPodSpec`: `o.Affinity != nil`
(common_helpers.go:96-98). -/
def overlayAffinityStep (o : Overlay) (pod : PodSpec) : PodSpec :=
  match o.Affinity with
  | some a => { pod with Affinity := some a }
  | none => pod

/-- Block of `Overlay.OverlayPodSpec`: `o.ServiceAccountName != ""`
(common_helpers.go:99-101). -/
def overlayServiceAccountStep (o : Overlay) (pod : PodSpec) : PodSpec :=
  if o.ServiceAccountName == "" then pod
  else { pod with ServiceAccountName := o.ServiceAccountName }

/-- Block of `Overlay.OverlayPodSpec`: `o.SecurityContext != nil`
(common_helpers.go:102-104). -/
def overlaySecurityContextStep (o : Overlay) (pod : PodSpec) : PodSpec :=
  match o.SecurityContext with
  | some sc => { pod with SecurityContext := some sc }
  | none => pod

/-- Block of `Overlay.OverlayPodSpec`: `o.ImagePullSecrets != nil`
(common_helpers.go:105-107). -/
def overlayImagePullSecretsStep (o : Overlay) (pod : PodSpec) : PodSpec :=
  match o.ImagePullSecrets with
  | some ips => { pod with ImagePullSecrets := some ips }
  | none => pod

/-- Block of `Overlay.OverlayPodSpec`: `o.Tolerations != nil`
(common_helpers.go:108-110). -/
def overlayTolerationsStep (o : Overlay) (pod : PodSpec) : PodSpec :=
  match o.Tolerations with
  | some ts => { pod with Tolerations := some ts }
  | none => pod

/-- Block of `Overlay.OverlayPodSpec`: `o.PriorityClassName != ""`
(common_helpers.go:111-113). -/
def overlayPriorityClassStep (o : Overlay) (pod : PodSpec) : PodSpec :=
  if o.PriorityClassName == "" then pod
  else { pod with PriorityClassName := o.PriorityClassName }

/-- Block of `Overlay.OverlayPodSpec`: `o.TerminationGracePeriodSeconds != nil`
(common_helpers.go:114-116). -/
def overlayTerminationGraceStep (o : Overlay) (pod : PodSpec) : PodSpec :=
  match o.TerminationGracePeriodSeconds with
  | some t => { pod with TerminationGracePeriodSeconds := some t }
  | none => pod

/-- Block of `Overlay.OverlayPodSpec`: `o.HostAliases != nil`
(common_helpers.go:117-119). -/
def overlayHostAliasesStep (o : Overlay) (pod : PodSpec) : PodSpec :=
  match o.HostAliases with
  | some hs => { pod with HostAliases := some hs }
  | none => pod

/-- Block of `Overlay.OverlayPodSpec`: `o.TopologySpreadConstraints != nil`
(full replace, common_helpers.go:120-123). -/
def overlayTopologySpreadStep (o : Overlay) (pod : PodSpec) : PodSpec :=
  match o.TopologySpreadConstraints with
  | some tsc => { pod with TopologySpreadConstraints := some tsc }
  | none => pod

/-- Block of `Overlay.OverlayPodSpec`: `o.RuntimeClassName != nil`
(common_helpers.go:124-126). -/
def overlayRuntimeClassStep (o : Overlay) (pod : PodSpec) : PodSpec :=
  match o.RuntimeClassName with
  | some rc => { pod with RuntimeClassName := some rc }
  | none => pod

/-- Block of `Overlay.OverlayPodSpec`: `o.DNSConfig != nil`
(common_helpers.go:127-129). -/
def overlayDNSConfigStep (o : Overlay) (pod : PodSpec) : PodSpec :=
  match o.DNSConfig with
  | some dc => { pod with DNSConfig := some dc }
  | none => pod

/-- Step of `Overlay.OverlayPodSpec`: the init-container full replacement
(common_helpers.go:130-133). -/
def overlayInitContainersStep (o : Overlay) (pod : PodSpec) : PodSpec :=
  match o.InitContainers with
  | some ics => { pod with InitContainers := ics }
  | none => pod

/-- Step of `Overlay.OverlayPodSpec`: the sidecar full replacement, keeping the
generated main container in front (common_helpers.go:134-143). -/
def overlaySidecarsStep (o : Overlay) (pod : PodSpec) : PodSpec :=
  match o.SidecarContainers with
  | some scs =>
    let containers := match findMainContainer pod.Containers with
      | some m => [m]
      | none => []
    { pod with Containers := containers ++ scs }
  | none => pod

/-- `Overlay.OverlayPodSpec` (common_helpers.go:87-144), as the source-ordered
composition of its field blocks; a nil receiver is a no-op. -/
def OverlayPodSpec (o : Option Overlay) (pod : PodSpec) : PodSpec :=
  match o with
  | none => pod
  | some o =>
    overlaySidecarsStep o
      (overlayInitContainersStep o
        (overlayDNSConfigStep o
          (overlayRuntimeClassStep o
            (overlayTopologySpreadStep o
              (overlayHostAliasesStep o
                (overlayTerminationGraceStep o
                  (overlayPriorityClassStep o
                    (overlayTolerationsStep o
                      (overlayImagePullSecretsStep o
                        (overlaySecurityContextStep o
                          (overlayServiceAccountStep o
                            (overlayAffinityStep o
                              (overlayVolumesStep o pod)))))))))))))

/-- `Overlay.OverlayMainContainer` (common_helpers.go:146-182); a nil receiver
is a no-op.  Note the source reads the guard from the embedded
`MainContainerOverlay` (`mc.XYZ`) and the payload from the same embedded field
via the outer receiver (`o.XYZ`). -/
def OverlayMainContainer (o : Option Overlay) (c : Container) : Container :=
  match o with
  | none => c
  | some o =>
    let mc := o.MainContainerOverlay
    let c := match mc.ImagePullPolicy with
      | some p => { c with ImagePullPolicy := p }
      | none => c
    let c := match mc.Command with
      | some cmd => { c with Command := cmd }
      | none => c
    let c := match mc.Args with
      | some args => { c with Args := args }
      | none => c
    let c := match mc.EnvFrom with
      | some ef => { c with EnvFrom := ef }
      | none => c
    let c := match mc.Env with
      | some env => { c with Env := UpsertListByKey (fun v => v.Name) c.Env env }
      | none => c
    let c := match mc.ReadinessProbe with
      | some rp => { c with ReadinessProbe := some rp }
      | none => c
    let c := match mc.LivenessProbe with
      | some lp => { c with LivenessProbe := some lp }
      | none => c
    let c := match mc.Lifecycle with
      | some lc => { c with Lifecycle := some lc }
      | none => c
    match mc.VolumeMounts with
      | some vms => { c with VolumeMounts := UpsertListByKey (fun v => v.Name) c.VolumeMounts vms }
      | none => c

/-! ## The failover tracker (`FailoverStatus.StoresFailedFor`) -/

/-- `v1alpha1.Store`: a store identity plus the timestamp of its last observed
transition to failed.  Timestamps are integers (Unix seconds). -/
structure Store where
  StoreID : String
  LastTransitionTime : Int
  deriving Repr, DecidableEq

/-- `v1alpha1.FailoverStatus`, restricted to the failed-store records the
embedded query reads. -/
structure FailoverStatus where
  FailedStores : List Store := []
  deriving Repr, DecidableEq

/-- `FailoverStatus.StoresFailedFor` (common_helpers.go:184-194): the stores
whose failure has lasted at least `d`.  `time.Now()` is an ambient input of
the Go code and is passed explicitly as `now`; the source only reads
`s.FailedStores`, so the embedded query returns the selected list and nothing
else. -/
def StoresFailedFor (s : FailoverStatus) (now d : Int) : List Store :=
  s.FailedStores.filter (fun store => now - store.LastTransitionTime ≥ d)

/-! ## SHA-1 (`crypto/sha1`), modelled from FIPS 180 for `UniqueBucketLabel`

The Go source feeds `sha1.Sum([]byte(uniqId))` with a UTF-8 string and renders
the 20-byte digest as 40 lowercase hex characters via `fmt.Sprintf("%x", ...)`.
Bytes are `Nat`s below 256; 32-bit words are `Nat`s reduced `% 2^32`. -/

/-- UTF-8 encoding of one character (Go `[]byte(string)` semantics). -/
def utf8Bytes (c : Char) : List Nat :=
  let n := c.toNat
  if n < 0x80 then [n]
  else if n < 0x800 then
    [0xC0 ||| (n >>> 6), 0x80 ||| (n &&& 0x3F)]
  else if n < 0x10000 then
    [0xE0 ||| (n >>> 12), 0x80 ||| ((n >>> 6) &&& 0x3F), 0x80 ||| (n &&& 0x3F)]
  else
    [0xF0 ||| (n >>> 18), 0x80 ||| ((n >>> 12) &&& 0x3F),
     0x80 ||| ((n >>> 6) &&& 0x3F), 0x80 ||| (n &&& 0x3F)]

/-- UTF-8 bytes of a string. -/
def strBytes (s : String) : List Nat :=
  s.data.foldr (fun c acc => utf8Bytes c ++ acc) []

/-- Left rotation of a 32-bit word. -/
def rotl32 (n w : Nat) : Nat :=
  ((w <<< n) ||| (w >>> (32 - n))) % 2 ^ 32

/-- Big-endian 8-byte rendering of the bit length. -/
def beBytes8 (n : Nat) : List Nat :=
  [n >>> 56 % 256, n >>> 48 % 256, n >>> 40 % 256, n >>> 32 % 256,
   n >>> 24 % 256, n >>> 16 % 256, n >>> 8 % 256, n % 256]

/-- SHA-1 padding: a `0x80` byte, zeros up to 56 mod 64, then the bit length. -/
def sha1Pad (msg : List Nat) : List Nat :=
  msg ++ [0x80] ++ List.replicate ((119 - msg.length % 64) % 64) 0
      ++ beBytes8 (msg.length * 8)

/-- Split a byte list into 64-byte chunks. -/
def chunks64 (l : List Nat) : List (List Nat) :=
  if l.isEmpty then [] else l.take 64 :: chunks64 (l.drop 64)
termination_by l.length
decreasing_by
  rename_i h
  simp only [List.length_drop]
  have hl : 0 < l.length := List.length_pos.mpr (by simpa using h)
  omega

/-- Big-endian 32-bit words of a byte list. -/
def toWordsBE : List Nat → List Nat
  | b0 :: b1 :: b2 :: b3 :: rest =>
    (b0 * 2 ^ 24 + b1 * 2 ^ 16 + b2 * 2 ^ 8 + b3) :: toWordsBE rest
  | _ => []

/-- One step of the SHA-1 message-schedule extension; `acc` holds the words
produced so far, most recent first. -/
def sha1ExtendStep (acc : List Nat) : List Nat :=
  rotl32 1 ((acc.getD 2 0) ^^^ (acc.getD 7 0) ^^^ (acc.getD 13 0) ^^^ (acc.getD 15 0)) :: acc

/-- The 80-word message schedule of one chunk. -/
def sha1Schedule (chunk : List Nat) : List Nat :=
  ((List.range 64).foldl (fun acc _ => sha1ExtendStep acc) (toWordsBE chunk).reverse).reverse

/-- The SHA-1 round function, by round index. -/
def sha1F (t b c d : Nat) : Nat :=
  if t < 20 then (b &&& c) ||| ((b ^^^ 0xFFFFFFFF) &&& d)
  else if t < 40 then b ^^^ c ^^^ d
  else if t < 60 then (b &&& c) ||| (b &&& d) ||| (c &&& d)
  else b ^^^ c ^^^ d

/-- The SHA-1 round constant, by round index. -/
def sha1K (t : Nat) : Nat :=
  if t < 20 then 0x5A827999
  else if t < 40 then 0x6ED9EBA1
  else if t < 60 then 0x8F1BBCDC
  else 0xCA62C1D6

/-- One SHA-1 round on the five-word working state. -/
def sha1Round (st : Nat × Nat × Nat × Nat × Nat) (tw : Nat × Nat) :
    Nat × Nat × Nat × Nat × Nat :=
  let (a, b, c, d, e) := st
  let (t, w) := tw
  ((rotl32 5 a + sha1F t b c d + e + sha1K t + w) % 2 ^ 32, a, rotl32 30 b, c, d)

/-- Process one 64-byte chunk into the running hash state. -/
def sha1Chunk (h : Nat × Nat × Nat × Nat × Nat) (chunk : List Nat) :
    Nat × Nat × Nat × Nat × Nat :=
  let (h0, h1, h2, h3, h4) := h
  let (a, b, c, d, e) := (sha1Schedule chunk).enum.foldl sha1Round (h0, h1, h2, h3, h4)
  ((h0 + a) % 2 ^ 32, (h1 + b) % 2 ^ 32, (h2 + c) % 2 ^ 32,
   (h3 + d) % 2 ^ 32, (h4 + e) % 2 ^ 32)

/-- The SHA-1 digest of a byte message, as five 32-bit words. -/
def sha1Digest (msg : List Nat) : Nat × Nat × Nat × Nat × Nat :=
  (chunks64 (sha1Pad msg)).foldl sha1Chunk
    (0x67452301, 0xEFCDAB89, 0x98BADCFE, 0x10325476, 0xC3D2E1F0)

/-- A lowercase hex digit. -/
def hexChar (n : Nat) : Char :=
  if n < 10 then Char.ofNat (48 + n) else Char.ofNat (87 + n)

/-- Eight lowercase hex characters of a 32-bit word (`fmt.Sprintf("%x", ...)`
on the big-endian digest bytes). -/
def toHex8 (w : Nat) : List Char :=
  [hexChar (w / 2 ^ 28 % 16), hexChar (w / 2 ^ 24 % 16), hexChar (w / 2 ^ 20 % 16),
   hexChar (w / 2 ^ 16 % 16), hexChar (w / 2 ^ 12 % 16), hexChar (w / 2 ^ 8 % 16),
   hexChar (w / 2 ^ 4 % 16), hexChar (w % 16)]

/-- `fmt.Sprintf("%x", sha1.Sum(bytes))`: the 40-character hex digest. -/
def sha1Hex (msg : List Nat) : String :=
  let d := sha1Digest msg
  ⟨toHex8 d.1 ++ toHex8 d.2.1 ++ toHex8 d.2.2.1 ++ toHex8 d.2.2.2.1 ++ toHex8 d.2.2.2.2⟩

/-! ## Bucket-claim deduplication (`UniqueBucketLabel`, `ClaimedBucket`) -/

/-- `v1alpha1.S3Provider`: the provider `Type` pointer (named `Type'` because
`Type` is reserved in Lean), endpoint and path, plus the credentials secret
reference the identity must NOT depend on. -/
structure S3Provider where
  Type' : Option String := none
  Endpoint : String := ""
  Path : String := ""
  SecretRef : Option String := none
  deriving Repr, DecidableEq

/-- `UniqueBucketLabel` (common_helpers.go:257-265): a nil provider type reads
as the empty string; the identity is the SHA-1 hex digest of
`type ++ "-" ++ endpoint ++ "-" ++ path`. -/
def UniqueBucketLabel (s3Provider : S3Provider) : String :=
  let providerType := match s3Provider.Type' with
    | some t => t
    | none => ""
  let uniqId := providerType ++ "-" ++ s3Provider.Endpoint ++ "-" ++ s3Provider.Path
  sha1Hex (strBytes uniqId)

/-- The pre-hash identity string of a provider (the `uniqId` local of
`UniqueBucketLabel` before hashing). -/
def bucketIdString (s3Provider : S3Provider) : String :=
  (match s3Provider.Type' with | some t => t | none => "")
    ++ "-" ++ s3Provider.Endpoint ++ "-" ++ s3Provider.Path

/-- The label key `v1alpha1.BucketUniqLabel`. -/
def BucketUniqLabel : String := "matrixorigin.io/bucket-unique-id"

/-- `v1alpha1.BucketClaim`, restricted to its object meta (whose labels drive
the lookup). -/
structure BucketClaim where
  Name : String := ""
  Namespace : String := ""
  Labels : List (String × String) := []
  deriving Repr, DecidableEq

/-- Label-map lookup (a Go `map[string]string` read). -/
def labelGet (labels : List (String × String)) (k : String) : Option String :=
  match labels.find? (fun kv => kv.1 == k) with
  | some kv => some kv.2
  | none => none

/-- `client.MatchingLabels{BucketUniqLabel: uniqLabel}`: a claim matches when
its label map carries the unique-id label with exactly that value. -/
def bucketClaimMatches (lbl : String) (bc : BucketClaim) : Bool :=
  labelGet bc.Labels BucketUniqLabel == some lbl

/-- The cluster-scoped `c.List` with the label selector, over a given store of
claims (the resource store is modelled as the list of all claims a successful
`List` call would see; transport errors are outside this model). -/
def listClaims (store : List BucketClaim) (lbl : String) : List BucketClaim :=
  store.filter (bucketClaimMatches lbl)

/-- `ClaimedBucket` (common_helpers.go:239-254): switch on the number of
matching claims -- zero signals "create" (`nil, nil`), one is returned, more
than one fails. -/
def ClaimedBucket (store : List BucketClaim) (provider : S3Provider) :
    Except String (Option BucketClaim) :=
  let uniqLabel := UniqueBucketLabel provider
  match listClaims store uniqLabel with
  | [] => .ok none
  | [bc] => .ok (some bc)
  | _ => .error "list more than one buckets"

/-! ## The path-addressed configuration document (`TomlConfig`)

Modelled from the spec: the controller-runtime `TomlConfig` (`NewTomlConfig`,
`Set`, `Merge`) is not part of the sampled sources.  Per the spec it is "a
path-addressed, nested key/value document": `Set(path, value)` replaces the
leaf at `path`, creating intermediate map nodes as needed, and `Merge(other)`
recursively unions two trees, the receiver winning on leaf conflict. -/

/-- A TOML leaf value (the value shapes the embedded call sites produce). -/
inductive TomlValue where
  | str : String → TomlValue
  | strs : List String → TomlValue
  | int : Int → TomlValue
  deriving Repr, DecidableEq

/-- A nested key/value document: a leaf or a table of named children. -/
inductive Toml where
  | leaf : TomlValue → Toml
  | table : List (String × Toml) → Toml

/-- Lookup of a direct child by key. -/
def assocGet (es : List (String × Toml)) (k : String) : Option Toml :=
  match es.find? (fun kv => kv.1 == k) with
  | some kv => some kv.2
  | none => none

/-- Replace the first binding of `k` in place, or append a new one. -/
def assocPut (es : List (String × Toml)) (k : String) (t : Toml) : List (String × Toml) :=
  match es with
  | [] => [(k, t)]
  | (k', t') :: rest => if k' == k then (k, t) :: rest else (k', t') :: assocPut rest k t

/-- The direct children of a node (a leaf has none). -/
def Toml.entries : Toml → List (String × Toml)
  | .leaf _ => []
  | .table es => es

/-- `TomlConfig.Set(path, value)`: unconditional leaf replace, creating
intermediate tables (and overwriting a leaf standing in the way). -/
def Toml.set (t : Toml) : List String → TomlValue → Toml
  | [], v => .leaf v
  | k :: ks, v =>
    let es := t.entries
    let child := match assocGet es k with
      | some c => c
      | none => .table []
    .table (assocPut es k (child.set ks v))

/-- The leaf value at a path (`none` when the path is absent or ends on a
table node). -/
def Toml.getValue : List String → Toml → Option TomlValue
  | [], .leaf v => some v
  | [], .table _ => none
  | _ :: _, .leaf _ => none
  | k :: ks, .table es =>
    match assocGet es k with
    | some c => Toml.getValue ks c
    | none => none

mutual

/-- `TomlConfig.Merge(other)`: recursive union, the receiver winning on any
conflict that involves a leaf; incoming keys absent from the receiver are
appended in their own order. -/
def Toml.merge : Toml → Toml → Toml
  | .table es1, .table es2 =>
    .table (mergeEntries es1 es2 ++ es2.filter (fun kv => (assocGet es1 kv.1).isNone))
  | t1, _ => t1

/-- The receiver's entries after merging in the matching incoming children. -/
def mergeEntries : List (String × Toml) → List (String × Toml) → List (String × Toml)
  | [], _ => []
  | (k, c1) :: rest, es2 =>
    (k, match assocGet es2 k with
        | some c2 => Toml.merge c1 c2
        | none => c1) :: mergeEntries rest es2

end

/-- `NewTomlConfig(map[string]interface{}{})`: the empty document. -/
def NewTomlConfig : Toml := .table []

/-! ## The DNSet controller (`pkg/controllers/dnset`)

Constant values from the controller `common` package are not part of the
sampled sources; representative values are used (no claim depends on the
concrete strings). -/

/-- `serviceType` of the dnset package. -/
def serviceType : String := "DN"

/-- `common.ConfigVolume`. -/
def ConfigVolume : String := "config"

/-- `common.ConfigPath`. -/
def ConfigPath : String := "/etc/matrixone/config"

/-- `common.DataVolume`. -/
def DataVolume : String := "data"

/-- `common.DataPath`. -/
def DataPath : String := "/var/lib/matrixone"

/-- `common.DataDir`. -/
def DataDir : String := "data"

/-- `common.ConfigFile`. -/
def ConfigFile : String := "config.toml"

/-- `common.Entrypoint`. -/
def Entrypoint : String := "start.sh"

/-- `common.PodNameEnvKey`. -/
def PodNameEnvKey : String := "POD_NAME"

/-- `common.NamespaceEnvKey`. -/
def NamespaceEnvKey : String := "NAMESPACE"

/-- `common.HeadlessSvcEnvKey`. -/
def HeadlessSvcEnvKey : String := "HEADLESS_SERVICE_NAME"

/-- `common.LockServicePort`. -/
def LockServicePort : Nat := 6003

/-- `dnServicePort` of the dnset package. -/
def dnServicePort : Nat := 41010

/-- `pub.InPlaceUpdateReady` readiness-gate condition type. -/
def InPlaceUpdateReady : String := "InPlaceUpdateReady"

/-- `v1alpha1.FileSystemProvider`. -/
structure FileSystemProvider where
  Path : String
  deriving Repr, DecidableEq

/-- `v1alpha1.SharedStorageProvider`: the file-system / object-storage
variant, as two optional branches (as in the Go struct). -/
structure SharedStorageProvider where
  S3 : Option S3Provider := none
  FileSystem : Option FileSystemProvider := none
  deriving Repr, DecidableEq

/-- `v1alpha1.Volume` (cache volume spec: size plus storage class). -/
structure MOVolume where
  SizeBytes : Nat
  StorageClassName : Option String := none
  deriving Repr, DecidableEq

/-- `v1alpha1.SharedStorageCache`: optional memory/disk cache sizes. -/
structure SharedStorageCache where
  MemoryCacheSize : Option Nat := none
  DiskCacheSize : Option Nat := none
  deriving Repr, DecidableEq

/-- `v1alpha1.LogSetSpec`, restricted to the fields the DNSet controller
reads. -/
structure LogSetSpec where
  Replicas : Int := 3
  SharedStorage : SharedStorageProvider := {}
  deriving Repr, DecidableEq

/-- `v1alpha1.LogSetStatus`: the published discovery address (`nil` until the
log service publishes it; `Discovery.String()` is the address string). -/
structure LogSetStatus where
  Discovery : Option String := none
  deriving Repr, DecidableEq

/-- `v1alpha1.LogSet`. -/
structure LogSet where
  Name : String := ""
  Namespace : String := ""
  Spec : LogSetSpec := {}
  Status : LogSetStatus := {}
  deriving Repr, DecidableEq

/-- `v1alpha1.DNSetSpec`, restricted to the fields the controller reads. -/
structure DNSetSpec where
  Replicas : Int := 1
  Image : String := ""
  Resources : ResourceRequirements := {}
  Config : Option Toml := none
  CacheVolume : Option MOVolume := none
  SharedStorageCache : SharedStorageCache := {}
  NodeSelector : List (String × String) := []
  TopologyEvenSpread : List String := []
  DNSBasedIdentity : Bool := false
  Overlay : Option Overlay := none

/-- `v1alpha1.DNSet`. -/
structure DNSet where
  Name : String := ""
  Namespace : String := ""
  Spec : DNSetSpec := {}

/-- `headlessSvcName(dn)` (defined elsewhere in the dnset package; modelled
from the spec's headless-service naming). -/
def headlessSvcName (dn : DNSet) : String := dn.Name ++ "-headless"

/-- `stsName(dn)` (modelled; not claim-relevant). -/
def stsName (dn : DNSet) : String := dn.Name

/-- `configMapName(dn)` (modelled; not claim-relevant). -/
def configMapName (dn : DNSet) : String := dn.Name ++ "-config"

/-- Modelled from the spec: `logset.HaKeeperAdds(ls)` (not in the sampled
sources) returns the HAKeeper client service addresses, one per log-service
replica pod. -/
def HaKeeperAdds (ls : LogSet) : List String :=
  (List.range ls.Spec.Replicas.toNat).map
    (fun i => ls.Name ++ "-log-" ++ toString i ++ "." ++ ls.Name ++ "-log-headless."
      ++ ls.Namespace ++ ".svc:32001")

/-- Modelled from the spec: `common.FileServiceConfig` (not in the sampled
sources) renders the shared-storage file-service settings as a subtree under
the `fileservice` key. -/
def FileServiceConfig (dataDir : String) (sp : SharedStorageProvider)
    (_cache : Option MOVolume) (_ssc : SharedStorageCache) : Toml :=
  .table [("fileservice", .table
    [("data-dir", .leaf (.str dataDir)),
     ("backend", .leaf (.str (match sp.S3 with | some _ => "S3" | none => "DISK")))])]

/-- `getListenAddress()` of the dnset package (modelled: the DN service
listen address on all interfaces). -/
def getListenAddress : String := "0.0.0.0:" ++ toString dnServicePort

/-- The configuration document artifact built by `buildDNSetConfigMap`.  The
`ConfigFile` entry is kept as the structured document (its TOML serialization
and the generated shell entrypoint script are external text artifacts no
claim refers to). -/
structure DNConfigMap where
  Name : String
  Namespace : String
  config : Toml

/-- `buildDNSetConfigMap` (dnset controller, part_000:157-193): fail when the
discovery address is unpublished; otherwise start from the user config, `Set`
the HAKeeper client service addresses (the `discovery-address` set is
commented out in the source), `Merge` the file-service settings, then `Set`
the service type and listen addresses. -/
def buildDNSetConfigMap (dn : DNSet) (ls : LogSet) : Except String DNConfigMap :=
  match ls.Status.Discovery with
  | none => .error "HAKeeper discovery address not ready"
  | some _ =>
    let conf := match dn.Spec.Config with
      | some c => c
      | none => NewTomlConfig
    let conf := conf.set ["hakeeper-client", "service-addresses"] (.strs (HaKeeperAdds ls))
    let conf := conf.merge (FileServiceConfig (DataPath ++ "/" ++ DataDir)
      ls.Spec.SharedStorage dn.Spec.CacheVolume dn.Spec.SharedStorageCache)
    let conf := conf.set ["service-type"] (.str serviceType)
    let conf := conf.set ["dn", "listen-address"] (.str getListenAddress)
    let conf := conf.set ["dn", "lockservice", "listen-address"]
      (.str ("0.0.0.0:" ++ toString LockServicePort))
    .ok { Name := configMapName dn, Namespace := dn.Namespace, config := conf }

/-- `kruise.StatefulSet` pod template. -/
structure PodTemplateSpec where
  ObjectMeta : ObjectMeta := {}
  Spec : PodSpec := {}
  deriving Repr, DecidableEq

/-- `kruise.StatefulSetSpec`, restricted to the fields the controller
touches. -/
structure StatefulSetSpec where
  Replicas : Option Int := none
  Template : PodTemplateSpec := {}
  VolumeClaimTemplates : List PersistentVolumeClaim := []
  deriving Repr, DecidableEq

/-- `kruise.StatefulSet`. -/
structure StatefulSet where
  ObjectMeta : ObjectMeta := {}
  Spec : StatefulSetSpec := {}
  deriving Repr, DecidableEq

/-- `syncReplicas` (part_000:95-97). -/
def syncReplicas (dn : DNSet) (cs : StatefulSet) : StatefulSet :=
  { cs with Spec.Replicas := some dn.Spec.Replicas }

/-- `syncPodMeta` (part_000:99-101). -/
def syncPodMeta (dn : DNSet) (cs : StatefulSet) : StatefulSet :=
  { cs with Spec.Template.ObjectMeta := OverlayPodMeta dn.Spec.Overlay cs.Spec.Template.ObjectMeta }

/-- `util.FieldRefEnv(key, path)` (controller-runtime, modelled): an env var
whose value is a downward-API field reference. -/
def FieldRefEnv (key path : String) : EnvVar :=
  { Name := key, Value := "fieldRef:" ++ path }

/-- Modelled from the spec: `common.SetStorageProviderConfig` (not in the
sampled sources) wires the shared-storage credentials into the pod -- for an
object-storage provider with a secret reference, every container sources the
secret's environment. -/
def SetStorageProviderConfig (sp : SharedStorageProvider) (spec : PodSpec) : PodSpec :=
  match sp.S3 with
  | some s3 =>
    match s3.SecretRef with
    | some sr => { spec with Containers :=
        (spec.Containers.map (fun c => { c with EnvFrom := c.EnvFrom ++ [sr] })) }
    | none => spec
  | none => spec

/-- Modelled from the spec: `common.SyncTopology` (not in the sampled sources)
spreads pods evenly over the given topology keys. -/
def SyncTopology (keys : List String) (spec : PodSpec) : PodSpec :=
  if keys.isEmpty then spec else { spec with TopologySpreadConstraints := some keys }

/-- `syncPodSpec` (part_000:103-154): rebuild the main container (image,
resources, entrypoint command, volume mounts conditioned on the cache volume,
computed env), apply the main-container overlay, install it as the only
container with the in-place-update readiness gate and node selector, set
storage and topology config, then apply the pod-spec overlay. -/
def syncPodSpec (dn : DNSet) (sts : StatefulSet) (sp : SharedStorageProvider) : StatefulSet :=
  let volumeMountsList : List VolumeMount :=
    [{ Name := ConfigVolume, ReadOnly := true, MountPath := ConfigPath }]
  let dataVolume : VolumeMount := { Name := DataVolume, MountPath := DataPath }
  let volumeMountsList := if dn.Spec.CacheVolume.isSome
    then volumeMountsList ++ [dataVolume] else volumeMountsList
  let mainRef := match sts.Spec.Template.Spec.Containers.find?
      (fun c => c.Name == ContainerMain) with
    | some c => c
    | none => { Name := ContainerMain }
  let mainRef := { mainRef with
    Image := dn.Spec.Image
    Resources := dn.Spec.Resources
    Command := ["/bin/sh", ConfigPath ++ "/" ++ Entrypoint]
    VolumeMounts := volumeMountsList
    Env := [FieldRefEnv PodNameEnvKey "metadata.name",
            FieldRefEnv NamespaceEnvKey "metadata.namespace",
            { Name := HeadlessSvcEnvKey, Value := headlessSvcName dn }] }
  let mainRef := if dn.Spec.DNSBasedIdentity
    then { mainRef with Env := mainRef.Env ++ [{ Name := "HOSTNAME_UUID", Value := "y" }] }
    else mainRef
  let mainRef := OverlayMainContainer dn.Spec.Overlay mainRef
  let specRef := sts.Spec.Template.Spec
  let specRef := { specRef with
    Containers := [mainRef]
    ReadinessGates := [InPlaceUpdateReady]
    NodeSelector := dn.Spec.NodeSelector }
  let specRef := SetStorageProviderConfig sp specRef
  let specRef := SyncTopology dn.Spec.TopologyEvenSpread specRef
  let specRef := OverlayPodSpec dn.Spec.Overlay specRef
  { sts with Spec.Template.Spec := specRef }

/-- `syncPersistentVolumeClaim` (part_000:203-210). -/
def syncPersistentVolumeClaim (dn : DNSet) (sts : StatefulSet) : StatefulSet :=
  match dn.Spec.CacheVolume with
  | some cv =>
    let dataPVC : PersistentVolumeClaim :=
      { Name := DataVolume, SizeBytes := cv.SizeBytes, StorageClassName := cv.StorageClassName }
    { sts with Spec.VolumeClaimTemplates := AppendVolumeClaims dn.Spec.Overlay [dataPVC] }
  | none => sts

/-- Modelled from the spec: `common.SyncConfigMap` (not in the sampled
sources) persists the configuration document and points the pod template's
config volume at it. -/
def SyncConfigMap (sts : StatefulSet) (cm : DNConfigMap) : Except String StatefulSet :=
  .ok { sts with Spec.Template.Spec.Volumes :=
    (UpsertListByKey (fun v => v.Name) sts.Spec.Template.Spec.Volumes
      [{ Name := ConfigVolume, Source := cm.Name }]) }

/-- `DNSetDeps` of `recon.Context[*v1alpha1.DNSet]`: the resolved dependency
snapshot carries the LogSet. -/
structure DNSetDeps where
  LogSet : LogSet
  deriving Repr, DecidableEq

/-- The object `ctx.Dep` points at (`ctx.Dep.Deps.LogSet` in Go). -/
structure DepHolder where
  Deps : DNSetDeps
  deriving Repr, DecidableEq

/-- `recon.Context[*v1alpha1.DNSet]`, restricted to the fields `syncPods`
reads; `Dep` is a Go pointer and hence an `Option`. -/
structure ReconContext where
  Obj : DNSet
  Dep : Option DepHolder

/-- The observable outcome of running a Go function that may dereference a
nil pointer: either a runtime panic or a returned value. -/
inductive GoResult (α : Type u) where
  | panicked : GoResult α
  | returned : α → GoResult α
  deriving Repr, DecidableEq

/-- `syncPods` (part_000:212-225).  The very first statement evaluates
`ctx.Dep.Deps.LogSet` as an argument of `buildDNSetConfigMap`, dereferencing
`ctx.Dep` before the `ctx.Dep != nil` guard below it; a nil `Dep` therefore
panics up front, and in the surviving branch the guard is vacuously true. -/
def syncPods (ctx : ReconContext) (sts : StatefulSet) : GoResult (Except String StatefulSet) :=
  match ctx.Dep with
  | none => .panicked
  | some dep =>
    match buildDNSetConfigMap ctx.Obj dep.Deps.LogSet with
    | .error err => .returned (.error err)
    | .ok cm =>
      let sts := syncPodMeta ctx.Obj sts
      let sts := if ctx.Dep.isSome
        then syncPodSpec ctx.Obj sts dep.Deps.LogSet.Spec.SharedStorage
        else sts
      .returned (SyncConfigMap sts cm)

/-! ## The CNSet webhook cache-size defaulting -/

/-- `v1alpha1.CNSetSpec`, restricted to the fields the defaulting webhook
reads. -/
structure CNSetSpec where
  Replicas : Int := 1
  Image : String := ""
  Resources : ResourceRequirements := {}
  CacheVolume : Option MOVolume := none
  SharedStorageCache : SharedStorageCache := {}
  deriving Repr, DecidableEq

/-- Modelled from the spec and the repository's webhook test: the CNSet
mutating webhook fills unset shared-storage cache sizes -- the disk cache
defaults from the cache volume (the in-src webhook test expects `18Gi` for a
`20Gi` volume, i.e. 90% of the volume size), and the memory cache defaults to
50% of the memory request.  The webhook source itself is not in the sampled
sources. -/
def defaultCacheSize (spec : CNSetSpec) : CNSetSpec :=
  let disk := match spec.SharedStorageCache.DiskCacheSize, spec.CacheVolume with
    | none, some cv => some (cv.SizeBytes * 9 / 10)
    | d, _ => d
  let mem := match spec.SharedStorageCache.MemoryCacheSize, spec.Resources.RequestsMemory with
    | none, some m => some (m / 2)
    | m, _ => m
  { spec with SharedStorageCache := { MemoryCacheSize := mem, DiskCacheSize := disk } }

/-! ## Concrete example objects used by witnesses and counterexamples -/

/-- A failover status with a single store that failed at time 0. -/
def failoverEx : FailoverStatus :=
  { FailedStores := [{ StoreID := "store-a", LastTransitionTime := 0 }] }

/-- An object-storage provider example. -/
def s3Ex : S3Provider :=
  { Type' := some "s3", Endpoint := "s3.us-west-2.amazonaws.com", Path := "mo-bucket/data" }

/-- A bucket claim labeled with `s3Ex`'s identity. -/
def claimA : BucketClaim :=
  { Name := "claim-a", Labels := [(BucketUniqLabel, UniqueBucketLabel s3Ex)] }

/-- A second bucket claim labeled with `s3Ex`'s identity. -/
def claimB : BucketClaim :=
  { Name := "claim-b", Labels := [(BucketUniqLabel, UniqueBucketLabel s3Ex)] }

/-- A LogSet that has published its discovery address. -/
def lsReady : LogSet :=
  { Name := "mo", Namespace := "default",
    Status := { Discovery := some "mo-log-discovery.default.svc:6001" } }

/-- A LogSet that has not yet published a discovery address. -/
def lsWaiting : LogSet :=
  { Name := "mo", Namespace := "default", Status := { Discovery := none } }

/-- A plain DNSet with no user config. -/
def dnEx : DNSet := { Name := "mo-dn", Namespace := "default", Spec := { Image := "mo:test" } }

/-- A reconciliation context whose dependency snapshot is present and ready. -/
def ctxReady : ReconContext := { Obj := dnEx, Dep := some { Deps := { LogSet := lsReady } } }

/-- A reconciliation context whose dependency snapshot is present but whose
LogSet has no discovery address yet. -/
def ctxWaiting : ReconContext := { Obj := dnEx, Dep := some { Deps := { LogSet := lsWaiting } } }

/-- A reconciliation context whose dependency snapshot is nil. -/
def ctxNilDep : ReconContext := { Obj := dnEx, Dep := none }

/-- An existing generated volume named `a`. -/
def volA : Volume := { Name := "a", Source := "generated-content" }

/-- An overlay volume that shares name `a` with the generated one. -/
def volA2 : Volume := { Name := "a", Source := "overlay-content" }

/-- An overlay volume with the fresh name `b`. -/
def volB : Volume := { Name := "b", Source := "overlay-content" }

/-- A generated pod spec whose volume list holds `a`. -/
def podEx : PodSpec := { Volumes := [volA] }

/-- An overlay carrying volumes `a` (replacement) and `b` (new). -/
def overlayEx : Overlay := { Volumes := some [volA2, volB] }

/-- A provider with an absent (nil) type. -/
def s3NilType : S3Provider := { Type' := none, Endpoint := "s3.example.com", Path := "bucket/p" }

/-- A provider identical to `s3NilType` except its type points at the empty
string. -/
def s3EmptyType : S3Provider := { Type' := some "", Endpoint := "s3.example.com", Path := "bucket/p" }

/-- A CNSet spec with a 20Gi cache volume, a 12Gi memory request and no
explicit cache sizes (the webhook test's input). -/
def cnEx : CNSetSpec :=
  { Replicas := 2, Image := "test",
    Resources := { RequestsMemory := some (12 * 2 ^ 30) },
    CacheVolume := some { SizeBytes := 20 * 2 ^ 30 } }

/-! ## Claim theorems -/

/-- C4: applying a nil overlay is the identity function on pod specs, pod
metadata and the main container (`OverlayPodSpec`, `OverlayPodMeta` and
`OverlayMainContainer` all return their input unchanged for a nil
receiver). -/
theorem overlay_nil_identity (m : ObjectMeta) (p : PodSpec) (c : Container) :
    OverlayPodSpec none p = p ∧ OverlayPodMeta none m = m ∧ OverlayMainContainer none c = c :=
  ⟨rfl, rfl, rfl⟩

/-- C10: `UniqueBucketLabel` does not distinguish an absent provider type from
an empty-string provider type -- for equal endpoint and path (and any secret
refs), both produce the same identity. -/
theorem uniqueBucketLabel_nil_type_eq_empty_type (e p : String) (sr1 sr2 : Option String) :
    UniqueBucketLabel { Type' := none, Endpoint := e, Path := p, SecretRef := sr1 }
      = UniqueBucketLabel { Type' := some "", Endpoint := e, Path := p, SecretRef := sr2 } :=
  rfl

/-- C9: `syncPods` dereferences `ctx.Dep` (via `ctx.Dep.Deps.LogSet`) before
its `ctx.Dep != nil` guard, so it panics exactly when the dependency snapshot
is nil: the later guard never prevents that dereference, and with a non-nil
snapshot the call is panic-free. -/
theorem syncPods_nil_dep_panics (ctx : ReconContext) (sts : StatefulSet) :
    (ctx.Dep = none → syncPods ctx sts = .panicked)
    ∧ (∀ dep, ctx.Dep = some dep → syncPods ctx sts ≠ .panicked) := by
  constructor
  · intro h
    simp [syncPods, h]
  · intro dep h
    simp only [syncPods, h]
    split <;> simp

/-- C9 witness: at the concrete contexts, a nil dependency snapshot panics
and a present one does not. -/
theorem syncPods_nil_dep_panics_witness :
    syncPods ctxNilDep {} = .panicked ∧ syncPods ctxReady {} ≠ .panicked :=
  ⟨(syncPods_nil_dep_panics ctxNilDep {}).1 rfl,
   (syncPods_nil_dep_panics ctxReady {}).2 { Deps := { LogSet := lsReady } } rfl⟩

/-- C6 counterexample: the claim reads "exactly those stores whose recorded
failure timestamp is older than now - d", but the source keeps a store whose
timestamp equals `now - d` exactly: at `now = 5`, `d = 5`, the store recorded
at time 0 is not older than `now - d = 0`, yet `StoresFailedFor` returns
it. -/
theorem storesFailedFor_boundary_counterexample :
    StoresFailedFor failoverEx 5 5 = [{ StoreID := "store-a", LastTransitionTime := 0 }]
      ∧ ¬((0 : Int) < 5 - 5) := by
  constructor
  · rfl
  · decide

/-- C6 (amended): `StoresFailedFor` returns exactly those stores whose
recorded failure timestamp is at least `d` old (boundary included:
`now - t ≥ d`); a store recorded at `now - 2d` is returned and one recorded
at `now - d/2` is omitted for `0 < d`; the embedded query only reads
`FailedStores` and returns the selection, so it has no effect on the
status. -/
theorem storesFailedFor_characterization (s : FailoverStatus) (now d : Int) (h : 0 < d) :
    (∀ st, st ∈ StoresFailedFor s now d ↔ st ∈ s.FailedStores ∧ now - st.LastTransitionTime ≥ d)
    ∧ (∀ st, st ∈ s.FailedStores → st.LastTransitionTime = now - 2 * d →
        st ∈ StoresFailedFor s now d)
    ∧ (∀ st, st.LastTransitionTime = now - d / 2 → st ∉ StoresFailedFor s now d) := by
  refine ⟨?_, ?_, ?_⟩
  · intro st
    simp [StoresFailedFor, List.mem_filter]
  · intro st hin ht
    simp only [StoresFailedFor, List.mem_filter, decide_eq_true_eq]
    exact ⟨hin, by rw [ht]; omega⟩
  · intro st ht
    simp only [StoresFailedFor, List.mem_filter, decide_eq_true_eq, not_and]
    intro _
    rw [ht]
    omega

/-- C6 witness: the characterization applied at `now = 10`, `d = 2` on the
concrete failover status. -/
theorem storesFailedFor_characterization_witness :
    (0 : Int) < 2 ∧
    ((∀ st, st ∈ StoresFailedFor failoverEx 10 2 ↔
        st ∈ failoverEx.FailedStores ∧ 10 - st.LastTransitionTime ≥ 2)
     ∧ (∀ st, st ∈ failoverEx.FailedStores → st.LastTransitionTime = 10 - 2 * 2 →
        st ∈ StoresFailedFor failoverEx 10 2)
     ∧ (∀ st, st.LastTransitionTime = 10 - 2 / 2 → st ∉ StoresFailedFor failoverEx 10 2)) :=
  ⟨by decide, storesFailedFor_characterization failoverEx 10 2 (by decide)⟩

/-- C8 counterexample: the claim says the defaulted disk cache size equals the
cache-volume size, but the repository's own webhook test expects `18Gi` for a
`20Gi` cache volume: the defaulting applies 90%, not 100%. -/
theorem defaultCacheSize_not_volume_size :
    cnEx.CacheVolume = some { SizeBytes := 20 * 2 ^ 30 }
    ∧ cnEx.SharedStorageCache.DiskCacheSize = none
    ∧ (defaultCacheSize cnEx).SharedStorageCache.DiskCacheSize = some (18 * 2 ^ 30)
    ∧ (18 * 2 ^ 30 : Nat) ≠ 20 * 2 ^ 30 := by
  refine ⟨rfl, rfl, by decide, by decide⟩

/-- C8 (amended): with an unset disk cache size and a cache volume present,
the defaulted disk cache size is 90% of the cache-volume size (the webhook
test's `20Gi → 18Gi`); with an unset memory cache size and a memory request
present, the defaulted memory cache size is 50% of the memory request. -/
theorem defaultCacheSize_defaults (spec : CNSetSpec) :
    (∀ cv, spec.SharedStorageCache.DiskCacheSize = none → spec.CacheVolume = some cv →
      (defaultCacheSize spec).SharedStorageCache.DiskCacheSize = some (cv.SizeBytes * 9 / 10))
    ∧ (∀ m, spec.SharedStorageCache.MemoryCacheSize = none →
        spec.Resources.RequestsMemory = some m →
      (defaultCacheSize spec).SharedStorageCache.MemoryCacheSize = some (m / 2)) := by
  constructor
  · intro cv h1 h2
    simp [defaultCacheSize, h1, h2]
  · intro m h1 h2
    simp [defaultCacheSize, h1, h2]

/-- C8 witness: the defaulting applied to the webhook test's CNSet spec:
disk `20Gi → 18Gi`, memory `12Gi → 6Gi`. -/
theorem defaultCacheSize_defaults_witness :
    (cnEx.SharedStorageCache.DiskCacheSize = none
      ∧ cnEx.CacheVolume = some { SizeBytes := 20 * 2 ^ 30 }
      ∧ (defaultCacheSize cnEx).SharedStorageCache.DiskCacheSize
          = some ((20 * 2 ^ 30 : Nat) * 9 / 10))
    ∧ (cnEx.SharedStorageCache.MemoryCacheSize = none
      ∧ cnEx.Resources.RequestsMemory = some (12 * 2 ^ 30)
      ∧ (defaultCacheSize cnEx).SharedStorageCache.MemoryCacheSize
          = some ((12 * 2 ^ 30 : Nat) / 2)) :=
  ⟨⟨rfl, rfl, (defaultCacheSize_defaults cnEx).1 { SizeBytes := 20 * 2 ^ 30 } rfl rfl⟩,
   ⟨rfl, rfl, (defaultCacheSize_defaults cnEx).2 (12 * 2 ^ 30) rfl rfl⟩⟩

/-- C1: `ClaimedBucket` signals "create" (`ok none`) when no claim carries the
identity label, returns the unique claim when exactly one does, and fails
with the claim-conflict error when two or more do -- never picking one
arbitrarily. -/
theorem claimedBucket_cases (store : List BucketClaim) (p : S3Provider) :
    (listClaims store (UniqueBucketLabel p) = [] → ClaimedBucket store p = .ok none)
    ∧ (∀ bc, listClaims store (UniqueBucketLabel p) = [bc] →
        ClaimedBucket store p = .ok (some bc))
    ∧ (2 ≤ (listClaims store (UniqueBucketLabel p)).length →
        ClaimedBucket store p = .error "list more than one buckets") := by
  refine ⟨?_, ?_, ?_⟩
  · intro h
    simp [ClaimedBucket, h]
  · intro bc h
    simp [ClaimedBucket, h]
  · intro h
    cases hl : listClaims store (UniqueBucketLabel p) with
    | nil => rw [hl] at h; simp at h
    | cons a t =>
      cases t with
      | nil => rw [hl] at h; simp at h
      | cons b r => simp [ClaimedBucket, hl]

/-- C1 witness: seeding zero, one and two claims under `s3Ex`'s identity
label produces the create signal, the unique claim, and the conflict
error. -/
theorem claimedBucket_cases_witness :
    ClaimedBucket [] s3Ex = .ok none
    ∧ ClaimedBucket [claimA] s3Ex = .ok (some claimA)
    ∧ ClaimedBucket [claimA, claimB] s3Ex = .error "list more than one buckets" :=
  ⟨(claimedBucket_cases [] s3Ex).1 rfl,
   (claimedBucket_cases [claimA] s3Ex).2.1 claimA
     (by simp [listClaims, claimA, bucketClaimMatches, labelGet]),
   (claimedBucket_cases [claimA, claimB] s3Ex).2.2
     (by simp [listClaims, claimA, claimB, bucketClaimMatches, labelGet])⟩

/-! ### The overlay steps other than the volumes block leave `Volumes`
unchanged -/

@[simp] theorem overlayAffinityStep_Volumes (o : Overlay) (pod : PodSpec) :
    (overlayAffinityStep o pod).Volumes = pod.Volumes := by
  unfold overlayAffinityStep; split <;> rfl

@[simp] theorem overlayServiceAccountStep_Volumes (o : Overlay) (pod : PodSpec) :
    (overlayServiceAccountStep o pod).Volumes = pod.Volumes := by
  unfold overlayServiceAccountStep; split <;> rfl

@[simp] theorem overlaySecurityContextStep_Volumes (o : Overlay) (pod : PodSpec) :
    (overlaySecurityContextStep o pod).Volumes = pod.Volumes := by
  unfold overlaySecurityContextStep; split <;> rfl

@[simp] theorem overlayImagePullSecretsStep_Volumes (o : Overlay) (pod : PodSpec) :
    (overlayImagePullSecretsStep o pod).Volumes = pod.Volumes := by
  unfold overlayImagePullSecretsStep; split <;> rfl

@[simp] theorem overlayTolerationsStep_Volumes (o : Overlay) (pod : PodSpec) :
    (overlayTolerationsStep o pod).Volumes = pod.Volumes := by
  unfold overlayTolerationsStep; split <;> rfl

@[simp] theorem overlayPriorityClassStep_Volumes (o : Overlay) (pod : PodSpec) :
    (overlayPriorityClassStep o pod).Volumes = pod.Volumes := by
  unfold overlayPriorityClassStep; split <;> rfl

@[simp] theorem overlayTerminationGraceStep_Volumes (o : Overlay) (pod : PodSpec) :
    (overlayTerminationGraceStep o pod).Volumes = pod.Volumes := by
  unfold overlayTerminationGraceStep; split <;> rfl

@[simp] theorem overlayHostAliasesStep_Volumes (o : Overlay) (pod : PodSpec) :
    (overlayHostAliasesStep o pod).Volumes = pod.Volumes := by
  unfold overlayHostAliasesStep; split <;> rfl

@[simp] theorem overlayTopologySpreadStep_Volumes (o : Overlay) (pod : PodSpec) :
    (overlayTopologySpreadStep o pod).Volumes = pod.Volumes := by
  unfold overlayTopologySpreadStep; split <;> rfl

@[simp] theorem overlayRuntimeClassStep_Volumes (o : Overlay) (pod : PodSpec) :
    (overlayRuntimeClassStep o pod).Volumes = pod.Volumes := by
  unfold overlayRuntimeClassStep; split <;> rfl

@[simp] theorem overlayDNSConfigStep_Volumes (o : Overlay) (pod : PodSpec) :
    (overlayDNSConfigStep o pod).Volumes = pod.Volumes := by
  unfold overlayDNSConfigStep; split <;> rfl

@[simp] theorem overlayInitContainersStep_Volumes (o : Overlay) (pod : PodSpec) :
    (overlayInitContainersStep o pod).Volumes = pod.Volumes := by
  unfold overlayInitContainersStep; split <;> rfl

@[simp] theorem overlaySidecarsStep_Volumes (o : Overlay) (pod : PodSpec) :
    (overlaySidecarsStep o pod).Volumes = pod.Volumes := by
  unfold overlaySidecarsStep; split <;> rfl

/-- The volume list of an applied overlay is decided by the volumes block
alone. -/
theorem overlayPodSpec_some_Volumes (o : Overlay) (pod : PodSpec) :
    (OverlayPodSpec (some o) pod).Volumes = (overlayVolumesStep o pod).Volumes := by
  simp [OverlayPodSpec]

/-- C5: with a non-nil overlay volume list, `OverlayPodSpec` upserts overlay
volumes by name into the pod's volumes: when an existing volume shares the
overlay volume's name the overlay entry replaces it in place (the list is
mapped, so untouched entries keep their positions and relative order), and
when no name matches the overlay entry is appended. -/
theorem overlayPodSpec_upserts_volumes (p : PodSpec) (o : Overlay) (vs : List Volume)
    (h : o.Volumes = some vs) :
    (OverlayPodSpec (some o) p).Volumes = UpsertListByKey (fun v => v.Name) p.Volumes vs
    ∧ (∀ (xs : List Volume) (y : Volume), (∃ x ∈ xs, x.Name = y.Name) →
        upsertOneByKey (fun v => v.Name) xs y
          = xs.map (fun x => if x.Name = y.Name then y else x))
    ∧ (∀ (xs : List Volume) (y : Volume), (∀ x ∈ xs, x.Name ≠ y.Name) →
        upsertOneByKey (fun v => v.Name) xs y = xs ++ [y]) := by
  refine ⟨?_, ?_, ?_⟩
  · rw [overlayPodSpec_some_Volumes]
    simp [overlayVolumesStep, h]
  · rintro xs y ⟨x, hx, hname⟩
    have htrue : (xs.any fun x => x.Name == y.Name) = true :=
      List.any_eq_true.mpr ⟨x, hx, by simp [hname]⟩
    simp only [upsertOneByKey, htrue, if_true]
    simp [beq_iff_eq]
  · intro xs y hno
    have hfalse : (xs.any fun x => x.Name == y.Name) = false := by
      simp only [List.any_eq_false]
      intro x hx
      simp [hno x hx]
    simp [upsertOneByKey, hfalse]

/-- C5 witness: overlay volumes `[a, b]` applied to a pod with existing
volume `a` give `a` the overlay's content in place and append `b`. -/
theorem overlayPodSpec_upserts_volumes_witness :
    overlayEx.Volumes = some [volA2, volB]
    ∧ ((OverlayPodSpec (some overlayEx) podEx).Volumes
          = UpsertListByKey (fun v => v.Name) podEx.Volumes [volA2, volB]
      ∧ (∀ (xs : List Volume) (y : Volume), (∃ x ∈ xs, x.Name = y.Name) →
          upsertOneByKey (fun v => v.Name) xs y
            = xs.map (fun x => if x.Name = y.Name then y else x))
      ∧ (∀ (xs : List Volume) (y : Volume), (∀ x ∈ xs, x.Name ≠ y.Name) →
          upsertOneByKey (fun v => v.Name) xs y = xs ++ [y]))
    ∧ (OverlayPodSpec (some overlayEx) podEx).Volumes = [volA2, volB] :=
  ⟨rfl, overlayPodSpec_upserts_volumes podEx overlayEx [volA2, volB] rfl, by decide⟩

/-! ### Helper lemmas for the bucket-identity theorems -/

/-- `String.mk` is injective on the character data. -/
theorem string_data_inj {s t : String} (h : s.data = t.data) : s = t := by
  cases s; cases t; exact congrArg String.mk h

/-- Each 32-bit word renders as exactly eight hex characters. -/
theorem toHex8_length (w : Nat) : (toHex8 w).length = 8 := rfl

/-- The digest rendering always has exactly 40 hex characters. -/
theorem sha1Hex_length (msg : List Nat) : (sha1Hex msg).length = 40 := by
  simp [sha1Hex, String.length, toHex8_length]

/-- `UniqueBucketLabel` is the hash of the pre-hash identity string. -/
theorem uniqueBucketLabel_eq_hash (p : S3Provider) :
    UniqueBucketLabel p = sha1Hex (strBytes (bucketIdString p)) := rfl

/-- The pre-hash identity string, written with `Option.getD`. -/
theorem bucketIdString_eq (p : S3Provider) :
    bucketIdString p = p.Type'.getD "" ++ "-" ++ p.Endpoint ++ "-" ++ p.Path := by
  rcases p with ⟨ty, e, pa, sr⟩
  cases ty <;> rfl

/-- Cancellation in the `type ++ "-" ++ endpoint ++ "-" ++ path` format: when
two of the three fields agree, equal concatenations force the third to
agree. -/
theorem bucket_parts_cancel {t1 e1 p1 t2 e2 p2 : String}
    (h : t1 ++ "-" ++ e1 ++ "-" ++ p1 = t2 ++ "-" ++ e2 ++ "-" ++ p2) :
    (e1 = e2 → p1 = p2 → t1 = t2)
    ∧ (t1 = t2 → p1 = p2 → e1 = e2)
    ∧ (t1 = t2 → e1 = e2 → p1 = p2) := by
  refine ⟨?_, ?_, ?_⟩
  · intro he hp
    subst he; subst hp
    have hd := congrArg String.data h
    simp only [String.data_append] at hd
    exact string_data_inj
      (List.append_cancel_right (List.append_cancel_right
        (List.append_cancel_right (List.append_cancel_right hd))))
  · intro ht hp
    subst ht; subst hp
    have hd := congrArg String.data h
    simp only [String.data_append] at hd
    exact string_data_inj
      (List.append_cancel_left (List.append_cancel_right (List.append_cancel_right hd)))
  · intro ht he
    subst ht; subst he
    have hd := congrArg String.data h
    simp only [String.data_append] at hd
    exact string_data_inj (List.append_cancel_left hd)

/-- C7 counterexample: two providers that differ in the type field (absent
versus empty-string) but share endpoint and path produce the same identity,
so "providers differing in any one of those fields produce different
identities" fails as stated. -/
theorem uniqueBucketLabel_differing_type_same_identity :
    s3NilType.Type' ≠ s3EmptyType.Type'
    ∧ s3NilType.Endpoint = s3EmptyType.Endpoint
    ∧ s3NilType.Path = s3EmptyType.Path
    ∧ UniqueBucketLabel s3NilType = UniqueBucketLabel s3EmptyType :=
  ⟨by simp [s3NilType, s3EmptyType], rfl, rfl, rfl⟩

/-- C7 (amended): the bucket identity is a pure function of the provider's
effective type string (a nil type reads as `""`), endpoint and path --
providers agreeing on those three produce identical identities regardless of
any other field, every identity is a 40-hex-character digest, and providers
differing in exactly one of the three (the others equal) produce different
pre-hash identity strings, hence different identities unless the two strings
collide under SHA-1. -/
theorem uniqueBucketLabel_identity_properties (p q : S3Provider)
    (ht : p.Type'.getD "" = q.Type'.getD "")
    (he : p.Endpoint = q.Endpoint) (hp : p.Path = q.Path) :
    UniqueBucketLabel p = UniqueBucketLabel q
    ∧ (UniqueBucketLabel p).length = 40
    ∧ (∀ r s : S3Provider, r.Type'.getD "" ≠ s.Type'.getD "" →
        r.Endpoint = s.Endpoint → r.Path = s.Path → bucketIdString r ≠ bucketIdString s)
    ∧ (∀ r s : S3Provider, r.Endpoint ≠ s.Endpoint →
        r.Type'.getD "" = s.Type'.getD "" → r.Path = s.Path →
        bucketIdString r ≠ bucketIdString s)
    ∧ (∀ r s : S3Provider, r.Path ≠ s.Path →
        r.Type'.getD "" = s.Type'.getD "" → r.Endpoint = s.Endpoint →
        bucketIdString r ≠ bucketIdString s) := by
  refine ⟨?_, sha1Hex_length _, ?_, ?_, ?_⟩
  · have hid : bucketIdString p = bucketIdString q := by
      rw [bucketIdString_eq, bucketIdString_eq, ht, he, hp]
    rw [uniqueBucketLabel_eq_hash, uniqueBucketLabel_eq_hash, hid]
  · intro r s hne hre hrp heq
    rw [bucketIdString_eq, bucketIdString_eq] at heq
    exact hne ((bucket_parts_cancel heq).1 hre hrp)
  · intro r s hne hrt hrp heq
    rw [bucketIdString_eq, bucketIdString_eq] at heq
    exact hne ((bucket_parts_cancel heq).2.1 hrt hrp)
  · intro r s hne hrt hre heq
    rw [bucketIdString_eq, bucketIdString_eq] at heq
    exact hne ((bucket_parts_cancel heq).2.2 hrt hre)

/-- C7 witness: the identity properties applied at `s3Ex` and its
metadata-variant (same type/endpoint/path, different secret ref). -/
theorem uniqueBucketLabel_identity_properties_witness :
    ({ s3Ex with SecretRef := some "credentials" } : S3Provider).Type'.getD ""
        = s3Ex.Type'.getD ""
    ∧ (UniqueBucketLabel { s3Ex with SecretRef := some "credentials" }
          = UniqueBucketLabel s3Ex
      ∧ (UniqueBucketLabel { s3Ex with SecretRef := some "credentials" }).length = 40
      ∧ (∀ r s : S3Provider, r.Type'.getD "" ≠ s.Type'.getD "" →
          r.Endpoint = s.Endpoint → r.Path = s.Path → bucketIdString r ≠ bucketIdString s)
      ∧ (∀ r s : S3Provider, r.Endpoint ≠ s.Endpoint →
          r.Type'.getD "" = s.Type'.getD "" → r.Path = s.Path →
          bucketIdString r ≠ bucketIdString s)
      ∧ (∀ r s : S3Provider, r.Path ≠ s.Path →
          r.Type'.getD "" = s.Type'.getD "" → r.Endpoint = s.Endpoint →
          bucketIdString r ≠ bucketIdString s)) :=
  ⟨rfl, uniqueBucketLabel_identity_properties
    { s3Ex with SecretRef := some "credentials" } s3Ex rfl rfl rfl⟩

/-! ### Helper lemmas for the configuration document -/

@[simp] theorem assocGet_nil (k : String) : assocGet [] k = none := rfl

@[simp] theorem assocGet_cons (k' : String) (t' : Toml) (rest : List (String × Toml))
    (k : String) :
    assocGet ((k', t') :: rest) k = if k' == k then some t' else assocGet rest k := by
  cases h : (k' == k) <;> simp [assocGet, List.find?, h]

theorem assocGet_assocPut_self (es : List (String × Toml)) (k : String) (t : Toml) :
    assocGet (assocPut es k t) k = some t := by
  induction es with
  | nil => simp [assocPut]
  | cons kv rest ih =>
    obtain ⟨k', t'⟩ := kv
    by_cases h : (k' == k) = true
    · simp [assocPut, h]
    · simp only [assocPut, h, if_false, Bool.false_eq_true]
      simp [h, ih]

theorem assocGet_assocPut_ne {k1 k2 : String} (hne : k1 ≠ k2)
    (es : List (String × Toml)) (t : Toml) :
    assocGet (assocPut es k1 t) k2 = assocGet es k2 := by
  have hb : (k1 == k2) = false := by simp [hne]
  induction es with
  | nil => simp [assocPut, hb]
  | cons kv rest ih =>
    obtain ⟨k', t'⟩ := kv
    by_cases h : (k' == k1) = true
    · have : k' = k1 := eq_of_beq h
      subst this
      simp [assocPut, hb]
    · simp only [assocPut, h, if_false, Bool.false_eq_true]
      by_cases h2 : (k' == k2) = true <;> simp [h2, ih]

theorem assocGet_append (l1 l2 : List (String × Toml)) (k : String) :
    assocGet (l1 ++ l2) k
      = match assocGet l1 k with
        | some x => some x
        | none => assocGet l2 k := by
  induction l1 with
  | nil => simp
  | cons kv rest ih =>
    obtain ⟨k', t'⟩ := kv
    by_cases h : (k' == k) = true <;> simp [h, ih]

theorem getValue_set_self (path : List String) (t : Toml) (v : TomlValue) :
    Toml.getValue path (t.set path v) = some v := by
  induction path generalizing t with
  | nil => simp [Toml.set, Toml.getValue]
  | cons k ks ih =>
    simp only [Toml.set, Toml.getValue, assocGet_assocPut_self]
    exact ih _

theorem getValue_set_ne {k1 k2 : String} (hne : k1 ≠ k2) (p1 p2 : List String)
    (t : Toml) (v : TomlValue) :
    Toml.getValue (k2 :: p2) (t.set (k1 :: p1) v) = Toml.getValue (k2 :: p2) t := by
  have hb : (k1 == k2) = false := by simp [hne]
  cases t with
  | leaf w =>
    simp [Toml.set, Toml.getValue, Toml.entries, assocPut, hb]
  | table es =>
    simp [Toml.set, Toml.getValue, Toml.entries, assocGet_assocPut_ne hne]

theorem merge_leaf (v : TomlValue) (t2 : Toml) : Toml.merge (.leaf v) t2 = .leaf v := by
  cases t2 <;> simp [Toml.merge]

theorem merge_table_leaf (es1 : List (String × Toml)) (w : TomlValue) :
    Toml.merge (.table es1) (.leaf w) = .table es1 := by
  simp [Toml.merge]

theorem merge_table_table (es1 es2 : List (String × Toml)) :
    Toml.merge (.table es1) (.table es2)
      = .table (mergeEntries es1 es2
          ++ es2.filter (fun kv => (assocGet es1 kv.1).isNone)) := by
  simp [Toml.merge]

theorem assocGet_mergeEntries (es1 es2 : List (String × Toml)) (k : String) :
    assocGet (mergeEntries es1 es2) k
      = (assocGet es1 k).map
          (fun c1 => match assocGet es2 k with
            | some c2 => Toml.merge c1 c2
            | none => c1) := by
  induction es1 with
  | nil => simp [mergeEntries]
  | cons kv rest ih =>
    obtain ⟨k', c'⟩ := kv
    by_cases h : (k' == k) = true
    · have : k' = k := eq_of_beq h
      subst this
      simp [mergeEntries, h]
    · simp [mergeEntries, h, ih]

theorem assocGet_filter_isNone (es1 es2 : List (String × Toml)) (k : String)
    (h : assocGet es1 k = none) :
    assocGet (es2.filter (fun kv => (assocGet es1 kv.1).isNone)) k = assocGet es2 k := by
  induction es2 with
  | nil => simp
  | cons kv rest ih =>
    obtain ⟨k2, c2⟩ := kv
    by_cases hk : (k2 == k) = true
    · have : k2 = k := eq_of_beq hk
      subst this
      simp [List.filter_cons, h, hk]
    · cases hp : (assocGet es1 k2).isNone <;>
        simp [List.filter_cons, hp, hk, ih]

theorem getValue_merge_some (p : List String) (t1 t2 : Toml) (v : TomlValue)
    (h : Toml.getValue p t1 = some v) :
    Toml.getValue p (t1.merge t2) = some v := by
  induction p generalizing t1 t2 with
  | nil =>
    cases t1 with
    | leaf w => rw [merge_leaf]; exact h
    | table es => simp [Toml.getValue] at h
  | cons k ks ih =>
    cases t1 with
    | leaf w => simp [Toml.getValue] at h
    | table es1 =>
      cases t2 with
      | leaf w => rw [merge_table_leaf]; exact h
      | table es2 =>
        rw [merge_table_table]
        simp only [Toml.getValue] at h ⊢
        rw [assocGet_append, assocGet_mergeEntries]
        cases hc : assocGet es1 k with
        | none => rw [hc] at h; simp at h
        | some c1 =>
          rw [hc] at h
          simp only [Option.map]
          cases hc2 : assocGet es2 k with
          | some c2 => exact ih _ _ h
          | none => exact h

theorem getValue_merge_none (p : List String) (t1 t2 : Toml)
    (h1 : Toml.getValue p t1 = none) (h2 : Toml.getValue p t2 = none) :
    Toml.getValue p (t1.merge t2) = none := by
  induction p generalizing t1 t2 with
  | nil =>
    cases t1 with
    | leaf w => simp [Toml.getValue] at h1
    | table es1 =>
      cases t2 with
      | leaf w => rw [merge_table_leaf]; exact h1
      | table es2 => rw [merge_table_table]; simp [Toml.getValue]
  | cons k ks ih =>
    cases t1 with
    | leaf w => rw [merge_leaf]; exact h1
    | table es1 =>
      cases t2 with
      | leaf w => rw [merge_table_leaf]; exact h1
      | table es2 =>
        rw [merge_table_table]
        simp only [Toml.getValue] at h1 h2 ⊢
        rw [assocGet_append, assocGet_mergeEntries]
        cases hc : assocGet es1 k with
        | some c1 =>
          rw [hc] at h1
          simp only [Option.map]
          cases hc2 : assocGet es2 k with
          | some c2 => rw [hc2] at h2; exact ih _ _ h1 h2
          | none => exact h1
        | none =>
          simp only [Option.map]
          rw [assocGet_filter_isNone _ _ _ hc]
          cases hc2 : assocGet es2 k with
          | some c2 => rw [hc2] at h2; exact h2
          | none => rfl

/-- C3 counterexample: the claim says a DataNode reconciliation with an
absent discovery address "returns a NotReady status and no error", but at the
concrete waiting context the reconciler returns an error: the dependency wait
surfaces as the `HAKeeper discovery address not ready` error from
`buildDNSetConfigMap`, propagated by `syncPods`. -/
theorem syncPods_absent_discovery_errors_counterexample :
    ctxWaiting.Dep = some { Deps := { LogSet := lsWaiting } }
    ∧ lsWaiting.Status.Discovery = none
    ∧ syncPods ctxWaiting {} = .returned (.error "HAKeeper discovery address not ready") :=
  ⟨rfl, rfl, rfl⟩

/-- C3 (amended): when the LogService's published discovery address is
absent, `buildDNSetConfigMap` fails with the `HAKeeper discovery address not
ready` error and `syncPods` propagates that error to its caller -- within the
sampled sources the dependency wait surfaces as an error return, not as an
error-free NotReady status. -/
theorem buildDNSetConfigMap_absent_discovery_error (dn : DNSet) (ls : LogSet)
    (h : ls.Status.Discovery = none) :
    buildDNSetConfigMap dn ls = .error "HAKeeper discovery address not ready"
    ∧ (∀ (dep : DepHolder) (sts : StatefulSet), dep.Deps.LogSet = ls →
        syncPods { Obj := dn, Dep := some dep } sts
          = .returned (.error "HAKeeper discovery address not ready")) := by
  have hb : buildDNSetConfigMap dn ls = .error "HAKeeper discovery address not ready" := by
    simp [buildDNSetConfigMap, h]
  refine ⟨hb, ?_⟩
  intro dep sts hdep
  simp [syncPods, hdep, hb]

/-- C3 witness: the amended behaviour at the concrete waiting LogSet. -/
theorem buildDNSetConfigMap_absent_discovery_error_witness :
    lsWaiting.Status.Discovery = none
    ∧ (buildDNSetConfigMap dnEx lsWaiting = .error "HAKeeper discovery address not ready"
      ∧ (∀ (dep : DepHolder) (sts : StatefulSet), dep.Deps.LogSet = lsWaiting →
          syncPods { Obj := dnEx, Dep := some dep } sts
            = .returned (.error "HAKeeper discovery address not ready"))) :=
  ⟨rfl, buildDNSetConfigMap_absent_discovery_error dnEx lsWaiting rfl⟩

/-- C2 counterexample: with the discovery address published, the built
configuration document does NOT contain the discovery address under the
expected path `hakeeper-client.discovery-address` (the source comments that
`Set` out): at the concrete input the build succeeds and the lookup at that
path is empty. -/
theorem buildDNSetConfigMap_no_discovery_in_config :
    lsReady.Status.Discovery = some "mo-log-discovery.default.svc:6001"
    ∧ (buildDNSetConfigMap dnEx lsReady).map
        (fun cm => Toml.getValue ["hakeeper-client", "discovery-address"] cm.config)
        = .ok none := by
  refine ⟨rfl, ?_⟩
  have h : lsReady.Status.Discovery = some "mo-log-discovery.default.svc:6001" := rfl
  simp only [buildDNSetConfigMap, h, Except.map]
  rw [getValue_set_ne (by decide : "dn" ≠ "hakeeper-client"),
      getValue_set_ne (by decide : "dn" ≠ "hakeeper-client"),
      getValue_set_ne (by decide : "service-type" ≠ "hakeeper-client")]
  refine congrArg Except.ok (getValue_merge_none _ _ _ ?_ ?_) <;> rfl

/-- C2 (amended): for every DataNode set whose LogService dependency has
published a discovery address, the built configuration document contains the
HAKeeper client service addresses under `hakeeper-client.service-addresses`;
the discovery address itself only gates the build and is not written into the
document. -/
theorem buildDNSetConfigMap_sets_service_addresses (dn : DNSet) (ls : LogSet) (d : String)
    (h : ls.Status.Discovery = some d) :
    (buildDNSetConfigMap dn ls).map
      (fun cm => Toml.getValue ["hakeeper-client", "service-addresses"] cm.config)
      = .ok (some (.strs (HaKeeperAdds ls))) := by
  simp only [buildDNSetConfigMap, h, Except.map]
  rw [getValue_set_ne (by decide : "dn" ≠ "hakeeper-client"),
      getValue_set_ne (by decide : "dn" ≠ "hakeeper-client"),
      getValue_set_ne (by decide : "service-type" ≠ "hakeeper-client")]
  exact congrArg Except.ok (getValue_merge_some _ _ _ _ (getValue_set_self _ _ _))

/-- C2 witness: the service addresses land under the expected key for the
concrete ready LogSet. -/
theorem buildDNSetConfigMap_sets_service_addresses_witness :
    lsReady.Status.Discovery = some "mo-log-discovery.default.svc:6001"
    ∧ (buildDNSetConfigMap dnEx lsReady).map
        (fun cm => Toml.getValue ["hakeeper-client", "service-addresses"] cm.config)
        = .ok (some (.strs (HaKeeperAdds lsReady))) :=
  ⟨rfl, buildDNSetConfigMap_sets_service_addresses dnEx lsReady
    "mo-log-discovery.default.svc:6001" rfl⟩
